import Mathlib

/-!
Shallow embedding of the texture-extraction scripts of this repository:
`src/scripts/extract_textures.py` (function `extract_textures_from_glb`) and
`src/scripts/update_mtl_and_textures.py` (function `main`).

Python strings are modelled as Lean `String`s; the string operations the
scripts use (`startswith`, `split`, slicing, `base64.b64decode`) are given
executable Lean counterparts over the underlying `Char` lists.  Bytes are
modelled as `List Nat` (each entry < 256 in practice).  The I/O the scripts
perform (directory creation, binary file writes, `print` calls) is recorded
as an explicit list of effects.
-/

/-! ### Python string primitives -/

/-- Model of Python `s.startswith(pre)`. -/
def strStartsWith (s pre : String) : Bool :=
  pre.data.isPrefixOf s.data

/-- Helper for `splitFirstComma`: break a character list at the first `','`. -/
def breakAtComma : List Char → Option (List Char × List Char)
  | [] => none
  | c :: t =>
    if c = ',' then some ([], t)
    else (breakAtComma t).map (fun p => (c :: p.1, p.2))

/-- Model of Python `s.split(',', 1)` when it yields two pieces: the part
before the first comma and the part after it.  `none` when `s` has no comma
(in the source this makes the two-variable unpacking raise `ValueError`). -/
def splitFirstComma (s : String) : Option (String × String) :=
  (breakAtComma s.data).map (fun p => (String.mk p.1, String.mk p.2))

/-- Model of Python `ct.split('/')[-1].split(';')[0]`: the substring after
the last `'/'` (the whole string when there is none) and before the first
`';'` that follows it. -/
def dataUriExtension (ct : String) : String :=
  String.mk (((ct.data.reverse.takeWhile (fun c => c ≠ '/')).reverse).takeWhile
    (fun c => c ≠ ';'))

/-- Value of one base64 alphabet character; `none` for every other
character (in `base64.b64decode`'s default non-strict mode those are
skipped, except for `'='` which drives the padding logic). -/
def b64val (c : Char) : Option Nat :=
  if 'A' ≤ c ∧ c ≤ 'Z' then some (c.toNat - 65)
  else if 'a' ≤ c ∧ c ≤ 'z' then some (c.toNat - 97 + 26)
  else if '0' ≤ c ∧ c ≤ '9' then some (c.toNat - 48 + 52)
  else if c = '+' then some 62
  else if c = '/' then some 63
  else none

/-- The decoding loop of CPython's `binascii.a2b_base64` in its default
non-strict mode, which is what `base64.b64decode(s)` (no `validate`) runs.
State: `quadPos` is the number of data characters accumulated in the
current quad (0..3), `leftchar` holds their leftover bits, `pads` counts
the padding characters of a candidate pad sequence, `acc` the bytes
emitted so far.  A `'='` when at least two data characters are pending and
the quad is completed by the padding ends decoding successfully (any
further input is ignored); a `'='` with fewer than two pending data
characters is skipped, as is every non-alphabet character.  Reaching the
end of the input mid-quad is the `binascii.Error` (`Incorrect padding`,
or the one-extra-character message when a single data character remains),
which discards everything. -/
def a2bBase64 : List Char → Nat → Nat → Nat → List Nat → Option (List Nat)
  | [], quadPos, _, _, acc => if quadPos = 0 then some acc else none
  | c :: rest, quadPos, leftchar, pads, acc =>
    if c = '=' then
      if 2 ≤ quadPos then
        if 4 ≤ quadPos + (pads + 1) then some acc
        else a2bBase64 rest quadPos leftchar (pads + 1) acc
      else a2bBase64 rest quadPos leftchar pads acc
    else
      match b64val c with
      | none => a2bBase64 rest quadPos leftchar pads acc
      | some v =>
        match quadPos with
        | 0 => a2bBase64 rest 1 v 0 acc
        | 1 => a2bBase64 rest 2 (v % 16) 0 (acc ++ [leftchar * 4 + v / 16])
        | 2 => a2bBase64 rest 3 (v % 4) 0 (acc ++ [leftchar * 16 + v / 4])
        | _ => a2bBase64 rest 0 0 0 (acc ++ [leftchar * 64 + v])

/-- Model of Python `base64.b64decode(s)` with its default arguments:
`binascii.a2b_base64` in non-strict mode, started on an empty quad.
`none` is the raised `binascii.Error` (for instance on `"QQ"`, `"QUJ"` or
`"Q=Q="`, whose input ends mid-quad without completing padding). -/
def b64decode (s : String) : Option (List Nat) :=
  a2bBase64 s.data 0 0 0 []

/-- Model of Python list/bytes slicing `l[start:stop]` for non-negative
bounds: out-of-range bounds are clamped, never an error. -/
def pySlice (l : List Nat) (start stop : Nat) : List Nat :=
  (l.take stop).drop start

/-- Characters Python `str.split()` treats as whitespace. -/
def isPySpace (c : Char) : Bool :=
  c = ' ' || c = '\t' || c = '\n' || c = '\r' || c = '\x0b' || c = '\x0c'

/-- Accumulating worker for `pySplit`. -/
def wordsAux : List Char → List Char → List String
  | acc, [] => if acc.isEmpty then [] else [String.mk acc.reverse]
  | acc, c :: t =>
    if isPySpace c then
      if acc.isEmpty then wordsAux [] t
      else String.mk acc.reverse :: wordsAux [] t
    else wordsAux (c :: acc) t

/-- Model of Python `s.strip().split()` (equivalently `s.split()`): the
maximal whitespace-free words of `s`, in order. -/
def pySplit (s : String) : List String :=
  wordsAux [] s.data

/-! ### Data model of `extract_textures_from_glb` (src/scripts/extract_textures.py)

The pygltflib objects the script reads are modelled field-for-field, with
exactly the fields the script touches.  `binary_blob` is the container's
embedded binary chunk (the script's comment states it is a bytes object,
`None` when absent); `get_data_from_buffer_uri` models the library call of
the same name, resolving a buffer's own URI to raw bytes (`none` when the
call returns no data). -/

/-- A glTF buffer as the script uses it: only its optional URI is read. -/
structure GlbBuffer where
  uri : Option String

/-- A glTF buffer view: buffer index, byte offset (pygltflib defaults it to
0 when absent) and byte length. -/
structure BufferView where
  buffer : Nat
  byteOffset : Nat
  byteLength : Nat

/-- A glTF image descriptor: optional URI, optional buffer-view index,
optional MIME type. -/
structure GltfImage where
  uri : Option String
  bufferView : Option Nat
  mimeType : Option String

/-- The parsed container plus the two byte sources the script consults. -/
structure GLTF2 where
  buffers : List GlbBuffer
  bufferViews : List BufferView
  images : List GltfImage
  binary_blob : Option (List Nat)
  get_data_from_buffer_uri : String → Option (List Nat)

/-- Outcome of the loop body for one image descriptor.  An exception raised
and caught by the per-descriptor `try`/`except` is an `error` carrying the
exception message; `wrote` carries the output filename, the payload bytes
and the source tag used in the success message. -/
inductive ImgResult where
  | wrote (filename : String) (data : List Nat) (src : String)
  | externalFile (filename : String)
  | noData
  | error (msg : String)
  | nothingDone
deriving DecidableEq, Repr

/-- One observable side effect of a run: directory creation, a binary file
write (path and content), or a console message. -/
inductive Effect where
  | ensureDir (dir : String)
  | write (path : String) (data : List Nat)
  | report (msg : String)
deriving DecidableEq, Repr

/-- Model of `os.path.join(dir, name)` for a relative `name`. -/
def osPathJoin (dir name : String) : String := dir ++ "/" ++ name

/-- Raw bytes of a buffer, as the script obtains them:
`gltf.get_data_from_buffer_uri(buffer.uri) if hasattr(buffer, 'uri') and buffer.uri
else gltf.binary_blob` — the buffer's own URI when present and non-empty,
otherwise the container's embedded binary section. -/
def rawBufferBytes (g : GLTF2) (buf : GlbBuffer) : Option (List Nat) :=
  match buf.uri with
  | some u => if u ≠ "" then g.get_data_from_buffer_uri u else g.binary_blob
  | none => g.binary_blob

/-- The extension chosen for a buffer-view image, exactly as the `if`/`elif`
chain of the script computes it from `image.mimeType`. -/
def extensionOfMime : Option String → String
  | some mt =>
    if mt = "image/jpeg" then "jpg"
    else if mt = "image/png" then "png"
    else if mt = "image/webp" then "webp"
    else "bin"
  | none => "bin"

/-- The data-URI branch of the loop body: split the URI at the first comma,
base64-decode the payload, derive the extension from the header. -/
def processDataUri (i : Nat) (u : String) : ImgResult :=
  match splitFirstComma u with
  | none => ImgResult.error "not enough values to unpack (expected 2, got 1)"
  | some (ct, b64data) =>
    match b64decode b64data with
    | none => ImgResult.error "Invalid base64-encoded string"
    | some img_data =>
      ImgResult.wrote ("texture_" ++ toString i ++ "." ++ dataUriExtension ct)
        img_data "data URI"

/-- The buffer-view branch of the loop body.  List indexing out of range is
Python's `IndexError`, caught by the surrounding `except`. -/
def processBufferView (g : GLTF2) (i : Nat) (img : GltfImage) : ImgResult :=
  match img.bufferView with
  | none => ImgResult.nothingDone
  | some bvIdx =>
    match g.bufferViews.get? bvIdx with
    | none => ImgResult.error "list index out of range"
    | some buffer_view =>
      match g.buffers.get? buffer_view.buffer with
      | none => ImgResult.error "list index out of range"
      | some buffer =>
        match rawBufferBytes g buffer with
        | none => ImgResult.noData
        | some buffer_data =>
          let start := buffer_view.byteOffset
          let length := buffer_view.byteLength
          let img_data := pySlice buffer_data start (start + length)
          ImgResult.wrote
            ("texture_" ++ toString i ++ "." ++ extensionOfMime img.mimeType)
            img_data ("buffer view " ++ toString bvIdx)

/-- The whole loop body for descriptor `i`: Python's
`if hasattr(image, 'uri') and image.uri:` (a present, non-empty URI) selects
the URI branches, otherwise the buffer-view branch runs. -/
def processImage (g : GLTF2) (i : Nat) (img : GltfImage) : ImgResult :=
  match img.uri with
  | some u =>
    if u ≠ "" then
      if strStartsWith u "data:" then processDataUri i u
      else ImgResult.externalFile u
    else processBufferView g i img
  | none => processBufferView g i img

/-- The effects one descriptor's result produces, in source order (the file
is written before the success message is printed). -/
def effectsOf (outDir : String) (i : Nat) : ImgResult → List Effect
  | ImgResult.wrote fn data src =>
    [Effect.write (osPathJoin outDir fn) data,
     Effect.report ("Extracted " ++ fn ++ " from " ++ src)]
  | ImgResult.externalFile fn =>
    [Effect.report ("Image " ++ toString i ++ " references external file: " ++ fn)]
  | ImgResult.noData =>
    [Effect.report ("Could not get binary data for image " ++ toString i)]
  | ImgResult.error msg =>
    [Effect.report ("Error extracting image " ++ toString i ++ ": " ++ msg)]
  | ImgResult.nothingDone => []

/-- The `for i, image in enumerate(gltf.images)` loop, started at index `i`. -/
def processImagesFrom (g : GLTF2) (outDir : String) : Nat → List GltfImage → List Effect
  | _, [] => []
  | i, img :: rest =>
    effectsOf outDir i (processImage g i img) ++ processImagesFrom g outDir (i + 1) rest

/-- The closing message printed after the loop. -/
def extractionCompleteMsg : String :=
  "\nTexture extraction complete. Check the extracted_textures directory."

/-- The body of `extract_textures_from_glb` after a successful parse of the
container, as its effect trace: ensure the output directory exists, bail out
(with a message) when there are no buffers or no images, otherwise process
every image in order. -/
def runExtract (g : GLTF2) (outDir : String) : List Effect :=
  Effect.ensureDir outDir ::
    (if g.buffers.isEmpty then [Effect.report "No buffers found in the GLB file."]
     else if g.images.isEmpty then [Effect.report "No images found in the GLB file."]
     else
       Effect.report ("Found " ++ toString g.images.length ++ " images in the GLB file.")
         :: (processImagesFrom g outDir 0 g.images ++ [Effect.report extractionCompleteMsg]))

/-- The file writes of an effect trace, in order. -/
def writesOf (effects : List Effect) : List (String × List Nat) :=
  effects.filterMap (fun e =>
    match e with
    | Effect.write p d => some (p, d)
    | _ => none)

/-- A flat model of the output directory's state: filename to content. -/
def FS : Type := String → Option (List Nat)

/-- Overwrite semantics of one `open(path, 'wb')` write. -/
def applyWrite (fs : FS) (w : String × List Nat) : FS :=
  fun p => if p = w.1 then some w.2 else fs p

/-- Apply a list of writes in order. -/
def applyWrites (fs : FS) (ws : List (String × List Nat)) : FS :=
  ws.foldl applyWrite fs

/-! ### Data model of `main` (src/scripts/update_mtl_and_textures.py)

The script reads material names from the `.mtl` file, maps each
`Material_<suffix>` to an expected texture `Image_<suffix>.png`, warns when a
convention-matching material has no texture, and rewrites the `.mtl` file
inserting a `map_Kd` line after each `illum` line of a mapped material. -/

/-- Key lookup in the material-to-texture dict, first binding wins (the dict
is keyed by material name). -/
def lookupStr : List (String × String) → String → Option String
  | [], _ => none
  | p :: t, k => if p.1 = k then some p.2 else lookupStr t k

/-- Model of `re.search(r'Material_(.+)', material)`: scanning left to
right, the first position where `Material_` occurs followed by at least one
character; the captured group is everything after that occurrence (material
names contain no newline, so the greedy `.+` runs to the end). -/
def findMaterialSuffix : List Char → Option (List Char)
  | [] => none
  | c :: t =>
    if "Material_".data.isPrefixOf (c :: t) ∧ 9 ≤ t.length then
      some ((c :: t).drop 9)
    else findMaterialSuffix t

/-- The material-to-texture mapping pass: for each material matching the
`Material_<suffix>` convention, map it to `Image_<suffix>.png` when that
texture exists, otherwise record the printed warning; non-matching materials
are passed over.  Returns the mapping and the warnings, each in scan order. -/
def buildTextureMap : List String → List String → List (String × String) × List String
  | [], _ => ([], [])
  | m :: ms, textures =>
    let rest := buildTextureMap ms textures
    match findMaterialSuffix m.data with
    | some suffixChars =>
      let expected := "Image_" ++ String.mk suffixChars ++ ".png"
      if expected ∈ textures then ((m, expected) :: rest.1, rest.2)
      else (rest.1,
        ("Warning: No texture found for material " ++ m ++ " (expected "
          ++ expected ++ ")") :: rest.2)
    | none => rest

/-- The MTL-rewriting loop: every line is copied; a `newmtl` line updates the
current material (its second whitespace-separated token — a `newmtl` line
with no token raises `IndexError`, modelled as `none`); an `illum` line of a
material present in the mapping additionally emits `map_Kd <material>.png`
right after it. -/
def updateMtlLines (mmap : List (String × String)) :
    Option String → List String → Option (List String)
  | _, [] => some []
  | cur, l :: ls =>
    if strStartsWith l "newmtl" then
      match (pySplit l)[1]? with
      | none => none
      | some name => (updateMtlLines mmap (some name) ls).map (fun r => l :: r)
    else
      match cur with
      | some c =>
        if strStartsWith l "illum" && (lookupStr mmap c).isSome then
          (updateMtlLines mmap cur ls).map
            (fun r => l :: ("map_Kd " ++ c ++ ".png") :: r)
        else (updateMtlLines mmap cur ls).map (fun r => l :: r)
      | none => (updateMtlLines mmap cur ls).map (fun r => l :: r)

/-! ### Definitions written from the specification's words, for comparison -/

/-- Extension mapping as the specification states it: `image/jpeg` to `jpg`,
`image/png` to `png`, `image/webp` to `webp`, anything else (an absent MIME
type included) to `bin`. -/
def mimeExtensionSpec : Option String → String
  | some "image/jpeg" => "jpg"
  | some "image/png" => "png"
  | some "image/webp" => "webp"
  | _ => "bin"

/-- The MTL rewrite as the specification's words describe it: walk the lines
tracking the current material (the second token of the last `newmtl` line);
copy every line through unchanged; immediately after each `illum` directive
of a material that has a mapped texture, insert `map_Kd <material>.png`. -/
def specMtlRewrite (mapped : String → Bool) : Option String → List String → List String
  | _, [] => []
  | cur, l :: ls =>
    if strStartsWith l "newmtl" then
      l :: specMtlRewrite mapped (pySplit l)[1]? ls
    else
      match cur with
      | some c =>
        if strStartsWith l "illum" && mapped c then
          l :: ("map_Kd " ++ c ++ ".png") :: specMtlRewrite mapped cur ls
        else l :: specMtlRewrite mapped cur ls
      | none => l :: specMtlRewrite mapped cur ls

/-! ### Helper lemmas -/

/-- Content the write list `ws` leaves at path `p`, last write winning. -/
def lookupLastW : List (String × List Nat) → String → Option (List Nat)
  | [], _ => none
  | w :: t, p =>
    match lookupLastW t p with
    | some v => some v
    | none => if p = w.1 then some w.2 else none

lemma applyWrites_apply (ws : List (String × List Nat)) (fs : FS) (p : String) :
    applyWrites fs ws p
      = match lookupLastW ws p with
        | some v => some v
        | none => fs p := by
  induction ws generalizing fs with
  | nil => rfl
  | cons w t ih =>
    show applyWrites (applyWrite fs w) t p = _
    rw [ih]
    cases h : lookupLastW t p with
    | some v => simp [lookupLastW, h]
    | none =>
      simp only [lookupLastW, h, applyWrite]
      by_cases hp : p = w.1 <;> simp [hp]

lemma applyWrites_idem (fs : FS) (ws : List (String × List Nat)) :
    applyWrites (applyWrites fs ws) ws = applyWrites fs ws := by
  funext p
  rw [applyWrites_apply, applyWrites_apply]
  cases h : lookupLastW ws p <;> simp

lemma processImagesFrom_append (g : GLTF2) (d : String) (i : Nat)
    (l₁ l₂ : List GltfImage) :
    processImagesFrom g d i (l₁ ++ l₂)
      = processImagesFrom g d i l₁ ++ processImagesFrom g d (i + l₁.length) l₂ := by
  induction l₁ generalizing i with
  | nil => simp [processImagesFrom]
  | cons a t ih =>
    have hn : i + (a :: t).length = (i + 1) + t.length := by
      simp only [List.length_cons]; omega
    simp only [List.cons_append, processImagesFrom, List.append_eq, ih (i + 1),
      List.append_assoc, hn]

lemma runExtract_decomp (g : GLTF2) (d : String) (pre post : List GltfImage)
    (img : GltfImage) (hb : g.buffers.isEmpty = false)
    (hi : g.images = pre ++ img :: post) :
    runExtract g d
      = Effect.ensureDir d ::
        Effect.report ("Found " ++ toString g.images.length ++ " images in the GLB file.")
          :: (processImagesFrom g d 0 pre
            ++ (effectsOf d pre.length (processImage g pre.length img)
            ++ (processImagesFrom g d (pre.length + 1) post
            ++ [Effect.report extractionCompleteMsg]))) := by
  have himg : g.images.isEmpty = false := by
    rw [hi]; cases pre <;> rfl
  have hloop : processImagesFrom g d 0 g.images
      = processImagesFrom g d 0 pre
        ++ (effectsOf d pre.length (processImage g pre.length img)
          ++ processImagesFrom g d (pre.length + 1) post) := by
    rw [hi, processImagesFrom_append]
    simp [processImagesFrom, Nat.zero_add]
  simp only [runExtract, hb, himg, Bool.false_eq_true, if_false, hloop,
    List.append_assoc]

lemma extensionOfMime_eq_spec (m : Option String) :
    extensionOfMime m = mimeExtensionSpec m := by
  rcases m with _ | mt
  · rfl
  · show (if mt = "image/jpeg" then "jpg"
      else if mt = "image/png" then "png"
      else if mt = "image/webp" then "webp" else "bin") = mimeExtensionSpec (some mt)
    unfold mimeExtensionSpec
    split_ifs with h1 h2 h3 <;> (try subst h1) <;> (try subst h2) <;> (try subst h3) <;>
      (try rfl)
    split <;> simp_all

/-! ### Claim theorems -/

/-- C10: the extractor ensures the output directory exists before the
buffer/image emptiness checks, so every run over a successfully parsed
container — zero-output runs included — begins by creating the output
directory (if absent): the very first effect of every run is `ensureDir`. -/
theorem output_dir_ensured_first (g : GLTF2) (d : String) :
    (runExtract g d).head? = some (Effect.ensureDir d) := rfl

/-- C7: running the extractor twice with the same container and output
directory yields byte-identical output files.  Each output is an overwrite
of its path, and the write list is a pure function of the container, so
applying the run's writes a second time leaves the file system unchanged. -/
theorem extractor_idempotent_on_filesystem (g : GLTF2) (d : String) (fs : FS) :
    applyWrites (applyWrites fs (writesOf (runExtract g d))) (writesOf (runExtract g d))
      = applyWrites fs (writesOf (runExtract g d)) :=
  applyWrites_idem fs (writesOf (runExtract g d))

/-- C5: a container with no buffers, or with no image descriptors, makes the
run report that condition and terminate successfully with zero output files:
the whole trace is the directory creation plus the one report, and contains
no write. -/
theorem empty_buffers_or_images_zero_outputs (g : GLTF2) (d : String)
    (h : g.buffers = [] ∨ g.images = []) :
    runExtract g d
      = [Effect.ensureDir d,
         Effect.report (if g.buffers.isEmpty then "No buffers found in the GLB file."
           else "No images found in the GLB file.")]
    ∧ writesOf (runExtract g d) = [] := by
  have h2 : runExtract g d
      = [Effect.ensureDir d,
         Effect.report (if g.buffers.isEmpty then "No buffers found in the GLB file."
           else "No images found in the GLB file.")] := by
    rcases h with h | h
    · simp [runExtract, h]
    · rcases hb : g.buffers with _ | ⟨b, bs⟩
      · simp [runExtract, hb]
      · simp [runExtract, hb, h]
  exact ⟨h2, by rw [h2]; rfl⟩

/-- C5 witness: a concrete container with no buffers. -/
theorem empty_buffers_or_images_zero_outputs_witness :
    runExtract
        { buffers := [], bufferViews := [], images := [], binary_blob := none,
          get_data_from_buffer_uri := fun _ => none } "out"
      = [Effect.ensureDir "out", Effect.report "No buffers found in the GLB file."]
    ∧ writesOf (runExtract
        { buffers := [], bufferViews := [], images := [], binary_blob := none,
          get_data_from_buffer_uri := fun _ => none } "out") = [] := by
  exact empty_buffers_or_images_zero_outputs _ "out" (Or.inl rfl)

/-- C8: a descriptor whose URI is a plain external filename (present,
non-empty, not starting with `data:`) produces only the informational
report naming that file, and no write. -/
theorem external_uri_reports_only (g : GLTF2) (d : String) (i : Nat)
    (img : GltfImage) (u : String) (huri : img.uri = some u) (hne : u ≠ "")
    (hnd : strStartsWith u "data:" = false) :
    effectsOf d i (processImage g i img)
      = [Effect.report ("Image " ++ toString i ++ " references external file: " ++ u)]
    ∧ writesOf (effectsOf d i (processImage g i img)) = [] := by
  have h1 : processImage g i img = ImgResult.externalFile u := by
    simp [processImage, huri, hne, hnd]
  exact ⟨by rw [h1]; rfl, by rw [h1]; rfl⟩

/-- C8 witness: a descriptor referencing `photo.png`. -/
theorem external_uri_reports_only_witness :
    effectsOf "out" 2 (processImage
        { buffers := [{ uri := none }], bufferViews := [], images := [],
          binary_blob := none, get_data_from_buffer_uri := fun _ => none } 2
        { uri := some "photo.png", bufferView := none, mimeType := none })
      = [Effect.report "Image 2 references external file: photo.png"]
    ∧ writesOf (effectsOf "out" 2 (processImage
        { buffers := [{ uri := none }], bufferViews := [], images := [],
          binary_blob := none, get_data_from_buffer_uri := fun _ => none } 2
        { uri := some "photo.png", bufferView := none, mimeType := none })) = [] := by
  have h := external_uri_reports_only
    { buffers := [{ uri := none }], bufferViews := [], images := [],
      binary_blob := none, get_data_from_buffer_uri := fun _ => none }
    "out" 2
    { uri := some "photo.png", bufferView := none, mimeType := none }
    "photo.png" rfl (by decide) (by decide)
  exact ⟨h.1.trans (by decide), h.2⟩

/-- C1: a descriptor with no (truthy) URI and a buffer view resolves the
referenced buffer, obtains its raw bytes (from the buffer's own URI when
present, else from the container's embedded binary section — this is
`rawBufferBytes`), slices exactly `[offset, offset+length)` out of them and
writes that payload to `texture_<i>.<ext>` in the output directory. -/
theorem bufferView_descriptor_extracts_exact_slice (g : GLTF2) (d : String)
    (i : Nat) (img : GltfImage) (bvIdx : Nat) (bv : BufferView) (buf : GlbBuffer)
    (bd : List Nat)
    (huri : img.uri = none ∨ img.uri = some "")
    (hbv : img.bufferView = some bvIdx)
    (hbvGet : g.bufferViews.get? bvIdx = some bv)
    (hbufGet : g.buffers.get? bv.buffer = some buf)
    (hbd : rawBufferBytes g buf = some bd)
    (hrange : bv.byteOffset + bv.byteLength ≤ bd.length) :
    effectsOf d i (processImage g i img)
      = [Effect.write
           (osPathJoin d ("texture_" ++ toString i ++ "." ++ extensionOfMime img.mimeType))
           ((bd.drop bv.byteOffset).take bv.byteLength),
         Effect.report ("Extracted "
           ++ ("texture_" ++ toString i ++ "." ++ extensionOfMime img.mimeType)
           ++ " from " ++ ("buffer view " ++ toString bvIdx))]
    ∧ ((bd.drop bv.byteOffset).take bv.byteLength).length = bv.byteLength := by
  have hslice : pySlice bd bv.byteOffset (bv.byteOffset + bv.byteLength)
      = (bd.drop bv.byteOffset).take bv.byteLength := by
    unfold pySlice
    rw [List.drop_take, Nat.add_sub_cancel_left]
  have h1 : processImage g i img
      = ImgResult.wrote ("texture_" ++ toString i ++ "." ++ extensionOfMime img.mimeType)
          ((bd.drop bv.byteOffset).take bv.byteLength)
          ("buffer view " ++ toString bvIdx) := by
    have h2 : processBufferView g i img
        = ImgResult.wrote
            ("texture_" ++ toString i ++ "." ++ extensionOfMime img.mimeType)
            ((bd.drop bv.byteOffset).take bv.byteLength)
            ("buffer view " ++ toString bvIdx) := by
      have hbvGet' : g.bufferViews[bvIdx]? = some bv := by
        rw [← List.get?_eq_getElem?]; exact hbvGet
      have hbufGet' : g.buffers[bv.buffer]? = some buf := by
        rw [← List.get?_eq_getElem?]; exact hbufGet
      simp [processBufferView, hbv, hbvGet', hbufGet', hbd, hslice]
    rcases huri with h | h <;> simp [processImage, h, h2]
  refine ⟨by rw [h1]; rfl, ?_⟩
  simp only [List.length_take, List.length_drop]
  omega

/-- C1 witness: MIME type `image/jpeg`, buffer index 0, offset 100, length
50, buffer of 200 bytes: the output is `texture_0.jpg` holding exactly bytes
[100,150) of the buffer. -/
theorem bufferView_descriptor_extracts_exact_slice_witness :
    effectsOf "out" 0 (processImage
        { buffers := [{ uri := none }],
          bufferViews := [{ buffer := 0, byteOffset := 100, byteLength := 50 }],
          images := [{ uri := none, bufferView := some 0, mimeType := some "image/jpeg" }],
          binary_blob := some (List.range 200),
          get_data_from_buffer_uri := fun _ => none } 0
        { uri := none, bufferView := some 0, mimeType := some "image/jpeg" })
      = [Effect.write "out/texture_0.jpg" (((List.range 200).drop 100).take 50),
         Effect.report "Extracted texture_0.jpg from buffer view 0"]
    ∧ (((List.range 200).drop 100).take 50).length = 50 := by
  have h := bufferView_descriptor_extracts_exact_slice
    { buffers := [{ uri := none }],
      bufferViews := [{ buffer := 0, byteOffset := 100, byteLength := 50 }],
      images := [{ uri := none, bufferView := some 0, mimeType := some "image/jpeg" }],
      binary_blob := some (List.range 200),
      get_data_from_buffer_uri := fun _ => none }
    "out" 0
    { uri := none, bufferView := some 0, mimeType := some "image/jpeg" }
    0 { buffer := 0, byteOffset := 100, byteLength := 50 } { uri := none }
    (List.range 200)
    (Or.inl rfl) rfl rfl rfl rfl (by simp)
  refine ⟨h.1.trans ?_, h.2⟩
  have he : extensionOfMime (some "image/jpeg") = "jpg" := by decide
  rw [he]
  rfl

/-- C6: for a buffer-view-backed descriptor the output extension is exactly
the spec's function of the MIME type — `image/jpeg` to `jpg`, `image/png` to
`png`, `image/webp` to `webp`, anything else (absent included) to `bin` —
as captured by `mimeExtensionSpec`. -/
theorem bufferView_extension_follows_mime_map (g : GLTF2)
    (i : Nat) (img : GltfImage) (bvIdx : Nat) (bv : BufferView) (buf : GlbBuffer)
    (bd : List Nat)
    (huri : img.uri = none ∨ img.uri = some "")
    (hbv : img.bufferView = some bvIdx)
    (hbvGet : g.bufferViews.get? bvIdx = some bv)
    (hbufGet : g.buffers.get? bv.buffer = some buf)
    (hbd : rawBufferBytes g buf = some bd) :
    processImage g i img
      = ImgResult.wrote
          ("texture_" ++ toString i ++ "." ++ mimeExtensionSpec img.mimeType)
          (pySlice bd bv.byteOffset (bv.byteOffset + bv.byteLength))
          ("buffer view " ++ toString bvIdx) := by
  have h2 : processBufferView g i img
      = ImgResult.wrote
          ("texture_" ++ toString i ++ "." ++ extensionOfMime img.mimeType)
          (pySlice bd bv.byteOffset (bv.byteOffset + bv.byteLength))
          ("buffer view " ++ toString bvIdx) := by
    have hbvGet' : g.bufferViews[bvIdx]? = some bv := by
      rw [← List.get?_eq_getElem?]; exact hbvGet
    have hbufGet' : g.buffers[bv.buffer]? = some buf := by
      rw [← List.get?_eq_getElem?]; exact hbufGet
    simp [processBufferView, hbv, hbvGet', hbufGet', hbd]
  rw [extensionOfMime_eq_spec] at h2
  rcases huri with h | h <;> simp [processImage, h, h2]

/-- C6 witness: MIME type `image/webp` yields extension `webp`; the same
container with the MIME type absent would yield `bin`. -/
theorem bufferView_extension_follows_mime_map_witness :
    processImage
        { buffers := [{ uri := none }],
          bufferViews := [{ buffer := 0, byteOffset := 0, byteLength := 2 }],
          images := [{ uri := none, bufferView := some 0, mimeType := some "image/webp" }],
          binary_blob := some [7, 8, 9],
          get_data_from_buffer_uri := fun _ => none } 0
        { uri := none, bufferView := some 0, mimeType := some "image/webp" }
      = ImgResult.wrote "texture_0.webp" [7, 8] "buffer view 0" := by
  have h := bufferView_extension_follows_mime_map
    { buffers := [{ uri := none }],
      bufferViews := [{ buffer := 0, byteOffset := 0, byteLength := 2 }],
      images := [{ uri := none, bufferView := some 0, mimeType := some "image/webp" }],
      binary_blob := some [7, 8, 9],
      get_data_from_buffer_uri := fun _ => none }
    0
    { uri := none, bufferView := some 0, mimeType := some "image/webp" }
    0 { buffer := 0, byteOffset := 0, byteLength := 2 } { uri := none } [7, 8, 9]
    (Or.inl rfl) rfl rfl rfl rfl
  exact h.trans (by decide)

/-- C2 counterexample container: one buffer-view descriptor with offset 2
and length 5 against an embedded binary section of only 4 bytes. -/
def gOverlong : GLTF2 :=
  { buffers := [{ uri := none }],
    bufferViews := [{ buffer := 0, byteOffset := 2, byteLength := 5 }],
    images := [{ uri := none, bufferView := some 0, mimeType := none }],
    binary_blob := some [10, 11, 12, 13],
    get_data_from_buffer_uri := fun _ => none }

/-- C2 counterexample: a buffer view whose offset+length (2+5) exceeds the
buffer's size (4) is NOT treated as an error — Python slicing clamps the
range, and the run writes `texture_0.bin` containing the truncated slice
(bytes [2,4)), contradicting the claim that no payload is produced. -/
theorem overlong_bufferView_still_writes_file :
    processImage gOverlong 0 { uri := none, bufferView := some 0, mimeType := none }
      = ImgResult.wrote "texture_0.bin" [12, 13] "buffer view 0"
    ∧ writesOf (runExtract gOverlong "out") = [("out/texture_0.bin", [12, 13])] :=
  ⟨by decide, by decide⟩

/-- C2 amended: a buffer-view descriptor whose offset+length exceeds the
buffer's size is not an error: the slice is clamped to the end of the
buffer's bytes, a file holding that truncated payload (of length
`size - offset`) is still written, and every subsequent descriptor is
processed exactly as before. -/
theorem overlong_bufferView_writes_clamped_slice (g : GLTF2) (d : String)
    (pre post : List GltfImage) (img : GltfImage) (bvIdx : Nat) (bv : BufferView)
    (buf : GlbBuffer) (bd : List Nat)
    (hb : g.buffers.isEmpty = false)
    (hi : g.images = pre ++ img :: post)
    (huri : img.uri = none ∨ img.uri = some "")
    (hbv : img.bufferView = some bvIdx)
    (hbvGet : g.bufferViews.get? bvIdx = some bv)
    (hbufGet : g.buffers.get? bv.buffer = some buf)
    (hbd : rawBufferBytes g buf = some bd)
    (hover : bd.length < bv.byteOffset + bv.byteLength) :
    runExtract g d
      = Effect.ensureDir d ::
        Effect.report ("Found " ++ toString g.images.length ++ " images in the GLB file.")
          :: (processImagesFrom g d 0 pre
            ++ (Effect.write
                  (osPathJoin d ("texture_" ++ toString pre.length ++ "."
                    ++ extensionOfMime img.mimeType))
                  (pySlice bd bv.byteOffset (bv.byteOffset + bv.byteLength))
              :: Effect.report ("Extracted "
                  ++ ("texture_" ++ toString pre.length ++ "." ++ extensionOfMime img.mimeType)
                  ++ " from " ++ ("buffer view " ++ toString bvIdx))
              :: (processImagesFrom g d (pre.length + 1) post
                ++ [Effect.report extractionCompleteMsg])))
    ∧ (pySlice bd bv.byteOffset (bv.byteOffset + bv.byteLength)).length
        = bd.length - bv.byteOffset := by
  have hw : processImage g pre.length img
      = ImgResult.wrote
          ("texture_" ++ toString pre.length ++ "." ++ extensionOfMime img.mimeType)
          (pySlice bd bv.byteOffset (bv.byteOffset + bv.byteLength))
          ("buffer view " ++ toString bvIdx) := by
    have h2 : processBufferView g pre.length img
        = ImgResult.wrote
            ("texture_" ++ toString pre.length ++ "." ++ extensionOfMime img.mimeType)
            (pySlice bd bv.byteOffset (bv.byteOffset + bv.byteLength))
            ("buffer view " ++ toString bvIdx) := by
      have hbvGet' : g.bufferViews[bvIdx]? = some bv := by
        rw [← List.get?_eq_getElem?]; exact hbvGet
      have hbufGet' : g.buffers[bv.buffer]? = some buf := by
        rw [← List.get?_eq_getElem?]; exact hbufGet
      simp [processBufferView, hbv, hbvGet', hbufGet', hbd]
    rcases huri with h | h <;> simp [processImage, h, h2]
  constructor
  · rw [runExtract_decomp g d pre post img hb hi, hw]
    rfl
  · simp only [pySlice, List.length_drop, List.length_take]
    omega

/-- C2 amended witness: the counterexample container followed by a second,
well-formed data-URI descriptor that is still extracted. -/
def gOverlong2 : GLTF2 :=
  { buffers := [{ uri := none }],
    bufferViews := [{ buffer := 0, byteOffset := 2, byteLength := 5 }],
    images := [{ uri := none, bufferView := some 0, mimeType := none },
               { uri := some "data:image/png;base64,QUJD", bufferView := none,
                 mimeType := none }],
    binary_blob := some [10, 11, 12, 13],
    get_data_from_buffer_uri := fun _ => none }

/-- C2 amended theorem witness: the truncated `texture_0.bin` (bytes [2,4),
length 4 - 2 = 2) is written and the following descriptor is still
extracted. -/
theorem overlong_bufferView_writes_clamped_slice_witness :
    runExtract gOverlong2 "out"
      = [Effect.ensureDir "out",
         Effect.report "Found 2 images in the GLB file.",
         Effect.write "out/texture_0.bin" [12, 13],
         Effect.report "Extracted texture_0.bin from buffer view 0",
         Effect.write "out/texture_1.png" [65, 66, 67],
         Effect.report "Extracted texture_1.png from data URI",
         Effect.report extractionCompleteMsg]
    ∧ (pySlice [10, 11, 12, 13] 2 (2 + 5)).length = 4 - 2 := by
  have h := overlong_bufferView_writes_clamped_slice gOverlong2 "out"
    [] [{ uri := some "data:image/png;base64,QUJD", bufferView := none, mimeType := none }]
    { uri := none, bufferView := some 0, mimeType := none }
    0 { buffer := 0, byteOffset := 2, byteLength := 5 } { uri := none }
    [10, 11, 12, 13]
    rfl rfl (Or.inl rfl) rfl rfl rfl rfl (by decide)
  exact ⟨h.1.trans (by decide), h.2⟩

/-- C4: when processing descriptor `i` raises an exception, the exception is
caught at the per-descriptor boundary and reported with the descriptor index
and the error message, and the run goes on to process every following
descriptor exactly as it otherwise would — the failure never aborts the
run. -/
theorem descriptor_error_reported_and_run_continues (g : GLTF2) (d : String)
    (pre post : List GltfImage) (img : GltfImage) (msg : String)
    (hb : g.buffers.isEmpty = false)
    (hi : g.images = pre ++ img :: post)
    (herr : processImage g pre.length img = ImgResult.error msg) :
    runExtract g d
      = Effect.ensureDir d ::
        Effect.report ("Found " ++ toString g.images.length ++ " images in the GLB file.")
          :: (processImagesFrom g d 0 pre
            ++ (Effect.report ("Error extracting image " ++ toString pre.length
                  ++ ": " ++ msg)
              :: (processImagesFrom g d (pre.length + 1) post
                ++ [Effect.report extractionCompleteMsg]))) := by
  rw [runExtract_decomp g d pre post img hb hi, herr]
  rfl

/-- C4 witness container: descriptor 0 references buffer view 7 (an
`IndexError`), descriptor 1 is a well-formed data URI. -/
def gErrFirst : GLTF2 :=
  { buffers := [{ uri := none }],
    bufferViews := [],
    images := [{ uri := none, bufferView := some 7, mimeType := none },
               { uri := some "data:image/png;base64,QUJD", bufferView := none,
                 mimeType := none }],
    binary_blob := some [10, 11],
    get_data_from_buffer_uri := fun _ => none }

/-- C4 witness: descriptor 0 fails with `IndexError`, the error is reported
with its index and message, and descriptor 1 is still extracted. -/
theorem descriptor_error_reported_and_run_continues_witness :
    runExtract gErrFirst "out"
      = [Effect.ensureDir "out",
         Effect.report "Found 2 images in the GLB file.",
         Effect.report "Error extracting image 0: list index out of range",
         Effect.write "out/texture_1.png" [65, 66, 67],
         Effect.report "Extracted texture_1.png from data URI",
         Effect.report extractionCompleteMsg] := by
  have h := descriptor_error_reported_and_run_continues gErrFirst "out"
    [] [{ uri := some "data:image/png;base64,QUJD", bufferView := none, mimeType := none }]
    { uri := none, bufferView := some 7, mimeType := none }
    "list index out of range"
    rfl rfl (by decide)
  exact h.trans (by decide)

/-- Warnings accumulate: a convention-matching material with no matching
texture contributes its warning to the warning list of the whole pass. -/
lemma buildTextureMap_warning (textures : List String) :
    ∀ (materials : List String) (m : String) (sfx : List Char),
      m ∈ materials → findMaterialSuffix m.data = some sfx →
      ("Image_" ++ String.mk sfx ++ ".png") ∉ textures →
      ("Warning: No texture found for material " ++ m ++ " (expected "
          ++ ("Image_" ++ String.mk sfx ++ ".png") ++ ")")
        ∈ (buildTextureMap materials textures).2 := by
  intro materials
  induction materials with
  | nil => intro m sfx hm _ _; exact absurd hm (List.not_mem_nil m)
  | cons m' ms ih =>
    intro m sfx hm hsfx hno
    rcases List.mem_cons.mp hm with rfl | hm'
    · simp only [buildTextureMap, hsfx]
      rw [if_neg hno]
      exact List.mem_cons_self _ _
    · have hmem := ih m sfx hm' hsfx hno
      simp only [buildTextureMap]
      split
      · split
        · exact hmem
        · exact List.mem_cons_of_mem _ hmem
      · exact hmem

/-- The rewriting loop of the script agrees with the insertion transform
stated by the specification whenever every `newmtl` line is well formed
(carries a material name — otherwise the script itself raises). -/
lemma updateMtl_refines (mmap : List (String × String)) (lines : List String) :
    ∀ (cur : Option String),
      (∀ l ∈ lines, strStartsWith l "newmtl" = true → ((pySplit l)[1]?).isSome) →
      updateMtlLines mmap cur lines
        = some (specMtlRewrite (fun c => (lookupStr mmap c).isSome) cur lines) := by
  induction lines with
  | nil => intro cur _; rfl
  | cons l ls ih =>
    intro cur hwf
    have hrest : ∀ l' ∈ ls, strStartsWith l' "newmtl" = true →
        ((pySplit l')[1]?).isSome :=
      fun l' h hn => hwf l' (List.mem_cons_of_mem _ h) hn
    by_cases hn : strStartsWith l "newmtl" = true
    · rcases Option.isSome_iff_exists.mp (hwf l (List.mem_cons_self _ _) hn)
        with ⟨name, hname⟩
      simp [updateMtlLines, specMtlRewrite, hn, hname, ih (some name) hrest]
    · have hn' : strStartsWith l "newmtl" = false := by
        simpa using hn
      cases cur with
      | none => simp [updateMtlLines, specMtlRewrite, hn', ih none hrest]
      | some c =>
        cases hil : strStartsWith l "illum" && (lookupStr mmap c).isSome with
        | false => simp [updateMtlLines, specMtlRewrite, hn', hil, ih (some c) hrest]
        | true => simp [updateMtlLines, specMtlRewrite, hn', hil, ih (some c) hrest]

/-- C9 counterexample: the material `Foo` has no matching texture file, yet
the pass emits no warning for it at all (it matches no `Material_<suffix>`
pattern, so it is silently skipped — and gets no mapping either), refuting
the claim that every material without a matching texture is warned about. -/
theorem unmatched_nonconvention_material_not_warned :
    buildTextureMap ["Foo"] [] = ([], []) := by decide

/-- C9 amended: (a) every material matching the `Material_<suffix>` naming
convention whose expected texture `Image_<suffix>.png` is absent is reported
with the script's warning (materials not matching the convention are
silently skipped); (b) the emitted material file is the input with a
`map_Kd <material>.png` line inserted immediately after each `illum`
directive of a material that has a mapped texture, every other line copied
through unchanged (`specMtlRewrite` is that transform, written from the
specification's words), provided every `newmtl` line carries a name. -/
theorem mtl_rewrite_and_convention_warnings
    (materials textures : List String) (m : String) (sfx : List Char)
    (mmap : List (String × String)) (cur : Option String) (lines : List String)
    (hm : m ∈ materials)
    (hsfx : findMaterialSuffix m.data = some sfx)
    (hno : ("Image_" ++ String.mk sfx ++ ".png") ∉ textures)
    (hwf : ∀ l ∈ lines, strStartsWith l "newmtl" = true → ((pySplit l)[1]?).isSome) :
    ("Warning: No texture found for material " ++ m ++ " (expected "
        ++ ("Image_" ++ String.mk sfx ++ ".png") ++ ")")
      ∈ (buildTextureMap materials textures).2
    ∧ updateMtlLines mmap cur lines
        = some (specMtlRewrite (fun c => (lookupStr mmap c).isSome) cur lines) :=
  ⟨buildTextureMap_warning textures materials m sfx hm hsfx hno,
   updateMtl_refines mmap lines cur hwf⟩

/-- C9 amended witness: `Material_9` has no texture and is warned about;
a two-material file with one mapped material gets exactly one `map_Kd` line
inserted, right after that material's `illum` line. -/
theorem mtl_rewrite_and_convention_warnings_witness :
    ("Warning: No texture found for material Material_9 (expected Image_9.png)"
        ∈ (buildTextureMap ["Material_0.1000", "Material_9"] ["Image_0.1000.png"]).2)
    ∧ updateMtlLines [("Material_1", "Image_1.png")] none
        ["newmtl Material_1", "Kd 1 1 1", "illum 2", "newmtl Material_2", "illum 1"]
      = some (specMtlRewrite
          (fun c => (lookupStr [("Material_1", "Image_1.png")] c).isSome) none
          ["newmtl Material_1", "Kd 1 1 1", "illum 2", "newmtl Material_2", "illum 1"]) := by
  have h := mtl_rewrite_and_convention_warnings
    ["Material_0.1000", "Material_9"] ["Image_0.1000.png"] "Material_9" ['9']
    [("Material_1", "Image_1.png")] none
    ["newmtl Material_1", "Kd 1 1 1", "illum 2", "newmtl Material_2", "illum 1"]
    (by decide) (by decide) (by decide) (by decide)
  exact ⟨by simpa using h.1, h.2⟩
